import Mathlib

/-!
Verification of the `parking` crate (src/src/lib.rs): a single-waiter
park/unpark primitive built from a tri-state atomic cell plus a
mutex/condition-variable pair.

Shallow embedding. The atomic state cell is a `Nat` holding one of the
source constants `EMPTY = 0`, `PARKED = 1`, `NOTIFIED = 2` (other values
are possible inputs, handled by the panic branches, exactly as in the
source). Concurrency is modelled by making the values the code observes
at its interference points explicit parameters:

* `stateAtLock` — the value of the cell at the moment `Inner::park`
  performs its compare-exchange `EMPTY -> PARKED` under the mutex
  (between the fast path and this point, concurrent `unpark` calls may
  have swapped the cell to `NOTIFIED`);
* `wakes` — for each return from a condition-variable wait, the value
  the cell holds at that moment. The timed path waits exactly once, so
  it reads the head of the list; an empty list means no concurrent
  writer touched the cell, so it still holds the `PARKED` that the
  parker itself wrote. The untimed path consumes one element per loop
  iteration; when the list runs out the thread is still blocked, which
  the model reports as the `waiting` exit.

Panics (`assert_eq!` / `panic!` in the source) are modelled as explicit
`fatal` exits (for `park`) and `Except.error` (for `unpark`), never as
silent results.
-/

/-- Source constant: no pending notification, no one waiting. -/
def EMPTY : Nat := 0

/-- Source constant: the parker thread has declared intent to wait. -/
def PARKED : Nat := 1

/-- Source constant: a notification is pending. -/
def NOTIFIED : Nat := 2

/-- How a call to `Inner::park` ends in the model: a normal boolean
return, a fatal panic (with the panic message), or still blocked on the
condition variable (untimed `park` whose wakeup list ran out before a
notification arrived). -/
inductive ParkExit where
  | ret (b : Bool)
  | fatal (msg : String)
  | waiting
deriving DecidableEq, Repr

/-- Observable outcome of a call to `Inner::park`: how it exited, the
value left in the state cell, whether the mutex was acquired, and
whether the thread actually waited on the condition variable. -/
structure ParkOutcome where
  exit : ParkExit
  state : Nat
  tookLock : Bool
  blocked : Bool
deriving DecidableEq, Repr

/-- Observable outcome of a call to `Inner::unpark`: the boolean it
returns, the value left in the state cell, and whether it signaled the
condition variable (`cvar.notify_one`). -/
structure UnparkOutcome where
  ret : Bool
  state : Nat
  woke : Bool
deriving DecidableEq, Repr

/-- The untimed wait loop of `Inner::park` (the `None` arm of the final
match in the source): on each wakeup it attempts the compare-exchange
`NOTIFIED -> EMPTY`; on success it returns `true`, otherwise it waits
again. `cur` is the value currently in the cell, `wakes` the values
observed at the successive wakeups. -/
def parkLoop (cur : Nat) : List Nat → ParkOutcome
  | [] => { exit := .waiting, state := cur, tookLock := true, blocked := true }
  | s :: rest =>
    if s = NOTIFIED then
      { exit := .ret true, state := EMPTY, tookLock := true, blocked := true }
    else
      parkLoop s rest

/-- Embedding of `Inner::park` (src/src/lib.rs lines 117-165).
`state0` is the cell value when the call starts, `timeout` the optional
duration (`Nat`, with `0` for `Duration::from_millis(0)`), `stateAtLock`
and `wakes` the interference parameters described in the header. -/
def Inner.park (state0 : Nat) (timeout : Option Nat)
    (stateAtLock : Nat) (wakes : List Nat) : ParkOutcome :=
  -- fast path: compare_exchange NOTIFIED -> EMPTY
  if state0 = NOTIFIED then
    { exit := .ret true, state := EMPTY, tookLock := false, blocked := false }
  -- zero timeout: no need to actually block
  else if timeout = some 0 then
    { exit := .ret false, state := state0, tookLock := false, blocked := false }
  else
    -- lock acquired; compare_exchange EMPTY -> PARKED
    if stateAtLock = EMPTY then
      match timeout with
      | none => parkLoop PARKED wakes
      | some _dur =>
        -- cvar.wait_timeout returned; unconditionally swap the state to EMPTY
        let old := wakes.headD PARKED
        if old = NOTIFIED then
          { exit := .ret true, state := EMPTY, tookLock := true, blocked := true }
        else if old = PARKED then
          { exit := .ret false, state := EMPTY, tookLock := true, blocked := true }
        else
          { exit := .fatal "inconsistent park_timeout state", state := EMPTY,
            tookLock := true, blocked := true }
    else if stateAtLock = NOTIFIED then
      -- Err(NOTIFIED): consume the raced notification: swap to EMPTY,
      -- assert the old value was NOTIFIED, return true without blocking
      let old := stateAtLock
      if old = NOTIFIED then
        { exit := .ret true, state := EMPTY, tookLock := true, blocked := false }
      else
        { exit := .fatal "park state changed unexpectedly", state := EMPTY,
          tookLock := true, blocked := false }
    else
      { exit := .fatal "inconsistent park_timeout state", state := stateAtLock,
        tookLock := true, blocked := false }

/-- Embedding of `Inner::unpark` (src/src/lib.rs lines 167-191): swap
the cell to `NOTIFIED` and branch on the previous value; `PARKED` means
a sleeper must be woken (lock rendezvous then `notify_one`). -/
def Inner.unpark (state : Nat) : Except String UnparkOutcome :=
  -- state.swap(NOTIFIED): the old value decides the branch
  let old := state
  if old = EMPTY then
    .ok { ret := true, state := NOTIFIED, woke := false }
  else if old = NOTIFIED then
    .ok { ret := false, state := NOTIFIED, woke := false }
  else if old = PARKED then
    .ok { ret := true, state := NOTIFIED, woke := true }
  else
    .error "inconsistent state in unpark"

/-- `Parker::park` delegates to `Inner::park` with no timeout. -/
def Parker.park (state0 stateAtLock : Nat) (wakes : List Nat) : ParkOutcome :=
  Inner.park state0 none stateAtLock wakes

/-- `Parker::park_timeout` delegates to `Inner::park` with `Some duration`. -/
def Parker.park_timeout (duration : Nat) (state0 stateAtLock : Nat)
    (wakes : List Nat) : ParkOutcome :=
  Inner.park state0 (some duration) stateAtLock wakes

/-- `Instant::saturating_duration_since`: the duration from `now` to
`instant`, saturating at zero when the instant already passed. Instants
are modelled as `Nat` timestamps, so Nat subtraction is exactly the
saturating difference. -/
def Instant.saturating_duration_since (instant now : Nat) : Nat :=
  instant - now

/-- `Parker::park_deadline` delegates to `Inner::park` with the
saturating difference between the deadline and the current instant. -/
def Parker.park_deadline (instant now : Nat) (state0 stateAtLock : Nat)
    (wakes : List Nat) : ParkOutcome :=
  Inner.park state0 (some (Instant.saturating_duration_since instant now))
    stateAtLock wakes

/-- `Unparker::unpark` delegates to `Inner::unpark`. -/
def Unparker.unpark (state : Nat) : Except String UnparkOutcome :=
  Inner.unpark state

/-! ## Claims C1 to C5 -/

/-- Claim C1: `Unparker.unpark` returns `true` iff it produced the first
pending notification since the last consumption: from `EMPTY` it returns
`true`, from `NOTIFIED` it returns `false`, and from `PARKED` it wakes
the parked thread (signals the condition variable) and returns `true`. -/
theorem unpark_first_notifier (s : Nat) :
    (s = EMPTY → Unparker.unpark s = .ok { ret := true, state := NOTIFIED, woke := false }) ∧
    (s = NOTIFIED → Unparker.unpark s = .ok { ret := false, state := NOTIFIED, woke := false }) ∧
    (s = PARKED → Unparker.unpark s = .ok { ret := true, state := NOTIFIED, woke := true }) := by
  refine ⟨?_, ?_, ?_⟩ <;> rintro rfl <;> rfl

/-- Witness for C1 at the three concrete states. -/
theorem unpark_first_notifier_witness :
    Unparker.unpark EMPTY = .ok { ret := true, state := NOTIFIED, woke := false } ∧
    Unparker.unpark NOTIFIED = .ok { ret := false, state := NOTIFIED, woke := false } ∧
    Unparker.unpark PARKED = .ok { ret := true, state := NOTIFIED, woke := true } :=
  ⟨(unpark_first_notifier EMPTY).1 rfl,
   (unpark_first_notifier NOTIFIED).2.1 rfl,
   (unpark_first_notifier PARKED).2.2 rfl⟩

/-- Claim C2, counterexample: calling unpark on an `EMPTY` cell does not
leave the cell `EMPTY` — the unconditional swap writes `NOTIFIED`. -/
theorem unpark_empty_counterexample :
    (Unparker.unpark EMPTY).toOption.map UnparkOutcome.state ≠ some EMPTY := by
  decide

/-- Claim C2, amended: when unpark is called while the state cell is
`EMPTY`, the call returns `true` (first notifier) and the state cell
holds `NOTIFIED` after the call (the pending notification is recorded by
the unconditional swap). -/
theorem unpark_empty_marks :
    Unparker.unpark EMPTY = .ok { ret := true, state := NOTIFIED, woke := false } := by
  rfl

/-- Claim C3: every park variant called while the cell holds `NOTIFIED`
takes the fast path: the state goes `NOTIFIED` to `EMPTY`, the call
returns `true` immediately, without blocking and without the lock. -/
theorem park_fast_path :
    (∀ sl w, Parker.park NOTIFIED sl w =
      { exit := .ret true, state := EMPTY, tookLock := false, blocked := false }) ∧
    (∀ d sl w, Parker.park_timeout d NOTIFIED sl w =
      { exit := .ret true, state := EMPTY, tookLock := false, blocked := false }) ∧
    (∀ i n sl w, Parker.park_deadline i n NOTIFIED sl w =
      { exit := .ret true, state := EMPTY, tookLock := false, blocked := false }) :=
  ⟨fun _ _ => rfl, fun _ _ _ => rfl, fun _ _ _ _ => rfl⟩

/-- Claim C4: `park_timeout` with a zero duration is a non-blocking
poll: with no pending notification (`EMPTY`) it returns `false` at once
without the lock or the blocking path; with a pending notification
(`NOTIFIED`) the fast path runs first and it returns `true` at once. -/
theorem park_zero_poll (sl : Nat) (w : List Nat) :
    Parker.park_timeout 0 EMPTY sl w =
      { exit := .ret false, state := EMPTY, tookLock := false, blocked := false } ∧
    Parker.park_timeout 0 NOTIFIED sl w =
      { exit := .ret true, state := EMPTY, tookLock := false, blocked := false } :=
  ⟨rfl, rfl⟩

/-- Claim C5: `park_deadline instant` equals a timed park with duration
`instant.saturating_duration_since now`; when the deadline already
passed the computed duration is zero, so from `EMPTY` the call polls
`false` immediately and from `NOTIFIED` the fast path returns `true`. -/
theorem park_deadline_refines (i n state0 sl : Nat) (w : List Nat) :
    Parker.park_deadline i n state0 sl w =
      Parker.park_timeout (Instant.saturating_duration_since i n) state0 sl w ∧
    (i ≤ n →
      Instant.saturating_duration_since i n = 0 ∧
      Parker.park_deadline i n EMPTY sl w =
        { exit := .ret false, state := EMPTY, tookLock := false, blocked := false } ∧
      Parker.park_deadline i n NOTIFIED sl w =
        { exit := .ret true, state := EMPTY, tookLock := false, blocked := false }) := by
  refine ⟨rfl, fun h => ?_⟩
  have hz : Instant.saturating_duration_since i n = 0 :=
    Nat.sub_eq_zero_of_le h
  refine ⟨hz, ?_, ?_⟩ <;>
    simp [Parker.park_deadline, hz, Inner.park, EMPTY, PARKED, NOTIFIED]

/-- Witness for C5 at `i = 1`, `n = 3` (deadline already passed). -/
theorem park_deadline_refines_witness :
    Parker.park_deadline 1 3 EMPTY EMPTY [] =
      Parker.park_timeout (Instant.saturating_duration_since 1 3) EMPTY EMPTY [] ∧
    Instant.saturating_duration_since 1 3 = 0 ∧
    Parker.park_deadline 1 3 EMPTY EMPTY [] =
      { exit := .ret false, state := EMPTY, tookLock := false, blocked := false } :=
  ⟨(park_deadline_refines 1 3 EMPTY EMPTY []).1,
   ((park_deadline_refines 1 3 EMPTY EMPTY []).2 (by decide)).1,
   ((park_deadline_refines 1 3 EMPTY EMPTY []).2 (by decide)).2.1⟩

/-! ## Claims C6 to C10 -/

/-- Claim C6: on the timed slow path, after the condition-variable wait
returns the state is unconditionally swapped to `EMPTY` (the state field
is `EMPTY` whatever was observed) and the result is decided by the prior
value `w`: `NOTIFIED` yields `true`, `PARKED` yields `false`, anything
else is a fatal internal-consistency error. -/
theorem park_timed_postwait (d : Nat) (hd : d ≠ 0) (w : Nat) :
    Parker.park_timeout d EMPTY EMPTY [w] =
      if w = NOTIFIED then
        { exit := .ret true, state := EMPTY, tookLock := true, blocked := true }
      else if w = PARKED then
        { exit := .ret false, state := EMPTY, tookLock := true, blocked := true }
      else
        { exit := .fatal "inconsistent park_timeout state", state := EMPTY,
          tookLock := true, blocked := true } := by
  simp [Parker.park_timeout, Inner.park, EMPTY, NOTIFIED, PARKED, hd]

/-- Witness for C6 at duration 5 with a notification observed at wake. -/
theorem park_timed_postwait_witness :
    Parker.park_timeout 5 EMPTY EMPTY [NOTIFIED] =
      { exit := .ret true, state := EMPTY, tookLock := true, blocked := true } := by
  have h := park_timed_postwait 5 (by decide) NOTIFIED
  simpa using h

/-- Claim C7: every state observed outside the expected set at a
transition point is a fatal panic, never silently ignored — at the
slow-path compare-exchange (first conjunct), at the post-wait swap
(second conjunct) and in unpark (third conjunct) — and under the states
reachable in single-waiter use (cell starts a park call at `EMPTY` or
`NOTIFIED`; under the lock the cell is `EMPTY` or `NOTIFIED`; at a wake
the cell is `PARKED` or `NOTIFIED`; unpark sees only the three
constants) the panic branches are unreachable (last two conjuncts). -/
theorem fatal_on_unexpected (state0 n w s d : Nat) (t : Option Nat) :
    (state0 ≠ NOTIFIED → t ≠ some 0 → n ≠ EMPTY → n ≠ NOTIFIED →
      ∀ wakes, (Inner.park state0 t n wakes).exit =
        .fatal "inconsistent park_timeout state") ∧
    (d ≠ 0 → w ≠ NOTIFIED → w ≠ PARKED →
      (Inner.park EMPTY (some d) EMPTY [w]).exit =
        .fatal "inconsistent park_timeout state") ∧
    (s ≠ EMPTY → s ≠ PARKED → s ≠ NOTIFIED →
      Inner.unpark s = .error "inconsistent state in unpark") ∧
    ((state0 = EMPTY ∨ state0 = NOTIFIED) → (n = EMPTY ∨ n = NOTIFIED) →
      (w = PARKED ∨ w = NOTIFIED) →
      ∀ msg, (Inner.park state0 t n [w]).exit ≠ .fatal msg) ∧
    ((s = EMPTY ∨ s = PARKED ∨ s = NOTIFIED) →
      ∃ o, Inner.unpark s = .ok o) := by
  refine ⟨?_, ?_, ?_, ?_, ?_⟩
  · intro h0 ht hn1 hn2 wakes
    simp [Inner.park, h0, ht, hn1, hn2]
  · intro hd hw1 hw2
    simp only [NOTIFIED, PARKED] at hw1 hw2
    simp [Inner.park, EMPTY, NOTIFIED, PARKED, hd, hw1, hw2]
  · intro hs1 hs2 hs3
    simp [Inner.unpark, hs1, hs2, hs3]
  · intro h0 hn hw msg
    rcases h0 with rfl | rfl <;> rcases hn with rfl | rfl <;>
      rcases hw with rfl | rfl <;> rcases t with _ | d'
    all_goals try by_cases hd' : d' = 0
    all_goals simp [Inner.park, parkLoop, EMPTY, NOTIFIED, PARKED, *]
  · intro hs
    rcases hs with rfl | rfl | rfl <;> exact ⟨_, rfl⟩

/-- Witness for C7 at concrete unexpected and expected observations. -/
theorem fatal_on_unexpected_witness :
    (Inner.park EMPTY none 7 []).exit = .fatal "inconsistent park_timeout state" ∧
    (Inner.park EMPTY (some 5) EMPTY [EMPTY]).exit =
      .fatal "inconsistent park_timeout state" ∧
    Inner.unpark 3 = .error "inconsistent state in unpark" ∧
    (Inner.park EMPTY none EMPTY [PARKED]).exit ≠ .fatal "x" ∧
    ∃ o, Inner.unpark PARKED = .ok o :=
  ⟨(fatal_on_unexpected EMPTY 7 PARKED 3 5 none).1 (by decide) (by decide)
      (by decide) (by decide) [],
   (fatal_on_unexpected EMPTY 7 EMPTY 3 5 none).2.1 (by decide) (by decide) (by decide),
   (fatal_on_unexpected EMPTY 7 PARKED 3 5 none).2.2.1 (by decide) (by decide) (by decide),
   (fatal_on_unexpected EMPTY EMPTY PARKED 3 5 none).2.2.2.1 (Or.inl rfl)
      (Or.inl rfl) (Or.inl rfl) "x",
   (fatal_on_unexpected EMPTY 7 PARKED PARKED 5 none).2.2.2.2 (Or.inr (Or.inl rfl))⟩

/-- Claim C8: on the slow path under the mutex, when the compare
exchange `EMPTY -> PARKED` fails because the observed state is
`NOTIFIED`, the notification is consumed (swap to `EMPTY`, the asserted
old value `NOTIFIED` holds, so no assertion failure) and the call
returns `true` without blocking. -/
theorem park_raced_notification (t : Option Nat) (ht : t ≠ some 0) (w : List Nat) :
    Inner.park EMPTY t NOTIFIED w =
      { exit := .ret true, state := EMPTY, tookLock := true, blocked := false } := by
  simp [Inner.park, EMPTY, NOTIFIED, ht]

/-- Witness for C8 at timeout 5 with no wake interference. -/
theorem park_raced_notification_witness :
    Inner.park EMPTY (some 5) NOTIFIED [] =
      { exit := .ret true, state := EMPTY, tookLock := true, blocked := false } :=
  park_raced_notification (some 5) (by decide) []

/-- Helper for C9: a timed `Inner::park` call (any `some` timeout) that
exits with a normal boolean return leaves the state cell `EMPTY`,
provided the cell held `EMPTY` or `NOTIFIED` when the call started. -/
theorem inner_park_some_ends_empty (state0 sl d : Nat) (w : List Nat) (b : Bool)
    (h0 : state0 = EMPTY ∨ state0 = NOTIFIED)
    (hret : (Inner.park state0 (some d) sl w).exit = .ret b) :
    (Inner.park state0 (some d) sl w).state = EMPTY := by
  rcases h0 with rfl | rfl
  · by_cases hd : d = 0
    · simp [Inner.park, EMPTY, NOTIFIED, hd]
    · by_cases h1 : sl = EMPTY
      · subst h1
        simp [Inner.park, EMPTY, NOTIFIED, PARKED, hd,
          apply_ite ParkOutcome.state]
      · by_cases h2 : sl = NOTIFIED
        · simp [Inner.park, EMPTY, NOTIFIED, PARKED, hd, h1, h2]
        · simp only [Inner.park, EMPTY, NOTIFIED, PARKED] at h1 h2 hret
          simp [h1, h2, hd] at hret
  · simp [Inner.park, EMPTY, NOTIFIED]

/-- Claim C9: every `park_timeout` or `park_deadline` call that returns
normally (exit is a boolean return, whatever path produced it) leaves
the state cell `EMPTY` — no `PARKED` or `NOTIFIED` value leaks past the
return — given that the cell held `EMPTY` or `NOTIFIED` at call time. -/
theorem park_timed_ends_empty (state0 sl : Nat) (w : List Nat) (b : Bool)
    (h0 : state0 = EMPTY ∨ state0 = NOTIFIED) :
    (∀ d, (Parker.park_timeout d state0 sl w).exit = .ret b →
      (Parker.park_timeout d state0 sl w).state = EMPTY) ∧
    (∀ i n, (Parker.park_deadline i n state0 sl w).exit = .ret b →
      (Parker.park_deadline i n state0 sl w).state = EMPTY) :=
  ⟨fun d hret => inner_park_some_ends_empty state0 sl d w b h0 hret,
   fun i n hret =>
     inner_park_some_ends_empty state0 sl
       (Instant.saturating_duration_since i n) w b h0 hret⟩

/-- Witness for C9: a timed-out wait and an already-passed deadline both
end with the cell `EMPTY`. -/
theorem park_timed_ends_empty_witness :
    (Parker.park_timeout 5 EMPTY EMPTY [PARKED]).state = EMPTY ∧
    (Parker.park_deadline 7 3 EMPTY EMPTY [PARKED]).state = EMPTY :=
  ⟨(park_timed_ends_empty EMPTY EMPTY [PARKED] false (Or.inl rfl)).1 5 (by decide),
   (park_timed_ends_empty EMPTY EMPTY [PARKED] false (Or.inl rfl)).2 7 3 (by decide)⟩

/-- Claim C10: after every unpark call on a cell holding one of the
three states, the cell holds `NOTIFIED`, regardless of the prior value —
the swap writes `NOTIFIED` unconditionally; in particular unpark from
`EMPTY` leaves the cell `NOTIFIED`. -/
theorem unpark_sets_notified (s : Nat)
    (h : s = EMPTY ∨ s = PARKED ∨ s = NOTIFIED) :
    (Unparker.unpark s).toOption.map UnparkOutcome.state = some NOTIFIED := by
  rcases h with rfl | rfl | rfl <;> rfl

/-- Witness for C10 at the `EMPTY` prior state. -/
theorem unpark_sets_notified_witness :
    (Unparker.unpark EMPTY).toOption.map UnparkOutcome.state = some NOTIFIED :=
  unpark_sets_notified EMPTY (Or.inl rfl)
